import Mathlib

deriving instance DecidableEq for Except

/-!
Shallow embedding of `install.py` from the VideoLingo-colab repository.

The script is a linear installer: it classifies the runtime (Colab vs
local), probes for an NVIDIA GPU, ensures `ffmpeg` is present, installs the
declared dependencies and launches the application.  Every externally
observable step (pip calls, apt-get calls, file writes/removals, console
output, the final launch) is recorded as an `Event`; Python exceptions are
modelled with `Except PyExc`.  The outcomes of the external world (whether
a subprocess succeeds, whether the requirements file exists, which
distributions are installed, ...) are packaged in an `Env` record, so each
Python function becomes a pure Lean function `Env → List Event × Except PyExc α`.
-/

namespace VideoLingo

/-- Python exceptions that can cross function boundaries in `install.py`. -/
inductive PyExc where
  /-- `subprocess.CalledProcessError` from a `check_call` / `run(check=True)`. -/
  | calledProcessError (cmd : String)
  /-- `FileNotFoundError` from `open`. -/
  | fileNotFound (file : String)
  /-- `pynvml.NVMLError` from any pynvml call. -/
  | nvmlError
  /-- `raise SystemExit(msg)` (install.py line 86). -/
  | systemExit (msg : String)
  /-- `UnboundLocalError` from reading a local variable that was never
  assigned (install.py line 82, `extra_note` outside Windows/Darwin/Linux). -/
  | unboundLocal (name : String)
  deriving DecidableEq

/-- Externally observable actions of the script, in program order. -/
inductive Event where
  /-- `subprocess.check_call([sys.executable, "-m", "pip", "install", *packages])`. -/
  | pipInstall (packages : List String)
  /-- `pip install -r <file>` (install.py lines 180-187 and 190-197). -/
  | pipInstallReq (file : String)
  /-- `subprocess.run(['apt-get', 'update'], check=True)` (line 60). -/
  | aptGetUpdate
  /-- `subprocess.run(['apt-get', 'install', '-y', 'ffmpeg'], check=True)` (line 61). -/
  | aptGetInstallFfmpeg
  /-- `subprocess.run(['ffmpeg', '-version'], ...)` (line 54). -/
  | runProc (cmd : List String)
  /-- `core.pypi_autochoose.main()` (line 157), the external mirror chooser. -/
  | chooseMirror
  /-- `open(name, 'w')` followed by `f.write(content)` (lines 178-179). -/
  | fwrite (file : String) (content : String)
  /-- `os.remove(name)` (line 188). -/
  | fremove (file : String)
  /-- `console.print(Panel(...))` — rich markup and styling elided. -/
  | panel (msg : String)
  /-- plain `print` / `console.print` of a string — markup elided. -/
  | echo (msg : String)
  /-- `subprocess.Popen(["streamlit", "run", "st.py"])` (line 215). -/
  | launch (cmd : List String)
  deriving DecidableEq

/-- Result of one sequential step: the events it emitted and its Python
outcome (normal value or in-flight exception). -/
abbrev Run (α : Type) := List Event × Except PyExc α

/-- Sequencing with Python exception propagation: if `x` raised, later code
does not run; otherwise its events are appended. -/
def runBind {α β : Type} (x : Run α) (f : α → Run β) : Run β :=
  match x.2 with
  | Except.error e => (x.1, Except.error e)
  | Except.ok a => (x.1 ++ (f a).1, (f a).2)

/-- A step that only prints and cannot raise. -/
def runPure (evs : List Event) : Run Unit := (evs, Except.ok ())

/-- Outcomes of the external world for one run of the script.  Each `...Ok`
field records whether the corresponding external call succeeds; data fields
record what the world contains (file lines, installed distributions, GPU
count). -/
structure Env where
  /-- `import google.colab` succeeds (`is_colab`, lines 16-21). -/
  colab : Bool
  /-- `platform.system()` (lines 66, 160, 165). -/
  systemName : String
  /-- `pip install requests rich ruamel.yaml` (line 138) succeeds. -/
  pipBaseOk : Bool
  /-- the external `core.pypi_autochoose.main()` call (line 157) completes;
  the module is outside this repository slice, so it is abstracted as an
  opaque step that either completes or raises. -/
  mirrorOk : Bool
  /-- `pip install pynvml` (line 27) succeeds. -/
  pynvmlInstallOk : Bool
  /-- `pynvml.nvmlInit()` (line 30) does not raise `NVMLError`. -/
  nvmlInitOk : Bool
  /-- `pynvml.nvmlDeviceGetCount()` (line 31) does not raise `NVMLError`. -/
  nvmlCountOk : Bool
  /-- the device count returned by `nvmlDeviceGetCount`. -/
  nvmlDeviceCount : Nat
  /-- the per-device `nvmlDeviceGetHandleByIndex` / `nvmlDeviceGetName`
  calls (lines 35-36) do not raise `NVMLError`. -/
  nvmlHandleNameOk : Bool
  /-- `pynvml.nvmlShutdown()` in the `finally` block (line 46) does not
  raise `NVMLError`. -/
  nvmlShutdownOk : Bool
  /-- the torch/torchaudio pip install (line 163 or 167) succeeds. -/
  pipTorchOk : Bool
  /-- `subprocess.run(['ffmpeg', '-version'], check=True)` (line 54) succeeds,
  i.e. the ffmpeg binary is present and working. -/
  ffmpegOk : Bool
  /-- `apt-get update` (line 60) succeeds. -/
  aptUpdateOk : Bool
  /-- `apt-get install -y ffmpeg` (line 61) succeeds. -/
  aptInstallOk : Bool
  /-- content of `requirements.txt` as a list of lines (`f.read().splitlines()`);
  `none` means the file does not exist and `open` raises `FileNotFoundError`. -/
  reqFile : Option (List String)
  /-- the installed distributions visible to `pkg_resources.get_distribution`,
  as (name, version) pairs. -/
  installedDist : List (String × String)
  /-- `pip install -r <requirements file>` (line 180 or 190) succeeds. -/
  pipReqsOk : Bool

/-! ### Python string primitives

`String.splitOn`/`String.trim` from core are not used because the embedding
must evaluate by kernel reduction; the handful of Python string operations
the script uses are re-implemented structurally on `List Char`. -/

/-- Python `str.startswith`: `pyStartswith s pre` is `s.startswith(pre)`. -/
def pyStartswith (s pre : String) : Bool :=
  List.isPrefixOf pre.toList s.toList

/-- Drop trailing whitespace characters from a character list. -/
def dropTrailingWs : List Char → List Char
  | [] => []
  | c :: rest =>
    match dropTrailingWs rest with
    | [] => if c.isWhitespace then [] else [c]
    | r => c :: r

/-- Python `str.strip()`: drop leading and trailing whitespace.  (Python also
strips `\x0b`/`\x0c`, which `Char.isWhitespace` omits; requirements files do
not contain those.) -/
def pyStrip (s : String) : String :=
  ⟨dropTrailingWs (s.toList.dropWhile Char.isWhitespace)⟩

/-- Characters of `s` before the first occurrence of `sep`, or `none` when
`sep` does not occur: models Python `sep in s` and `s.split(sep)[0]`. -/
def splitHead (sep : List Char) : List Char → Option (List Char)
  | [] => none
  | c :: rest =>
    if List.isPrefixOf sep (c :: rest) then some []
    else
      match splitHead sep rest with
      | some pre => some (c :: pre)
      | none => none

/-- Python `'\n'.join(lines)`. -/
def joinLines : List String → String
  | [] => ""
  | [s] => s
  | s :: rest => s ++ "\n" ++ joinLines rest

/-! ### The functions of `install.py` -/

/-- `is_colab()` (lines 16-21). -/
def is_colab (env : Env) : Bool := env.colab

/-- `install_package(*packages)` (lines 23-24): a pip `check_call`; raises
`CalledProcessError` when the pip subprocess fails (`ok = false`). -/
def install_package (packages : List String) (ok : Bool) : Run Unit :=
  ([Event.pipInstall packages],
   if ok then Except.ok () else Except.error (PyExc.calledProcessError "pip install"))

/-- Body of the `try` in `check_nvidia_gpu` (lines 30-41): init, count
devices, print and return `true` when some device exists, `false` otherwise;
any failing pynvml call raises `NVMLError`.  (The per-device name prints of
lines 34-37 are collapsed into the one detection line.) -/
def nvmlProbeBody (env : Env) : Run Bool :=
  if !env.nvmlInitOk then ([], Except.error PyExc.nvmlError)
  else if !env.nvmlCountOk then ([], Except.error PyExc.nvmlError)
  else if env.nvmlDeviceCount > 0 then
    if env.nvmlHandleNameOk then
      ([Event.echo "Detected NVIDIA GPU(s)"], Except.ok true)
    else
      ([Event.echo "Detected NVIDIA GPU(s)"], Except.error PyExc.nvmlError)
  else
    ([Event.echo "No NVIDIA GPU detected"], Except.ok false)

/-- `check_nvidia_gpu()` (lines 26-46).  The pip install of pynvml (line 27)
is outside the `try`, so its failure propagates.  The `except pynvml.NVMLError`
handler turns a body `NVMLError` into `False`; the `finally` then runs
`pynvml.nvmlShutdown()`, and an `NVMLError` raised there replaces the
pending return value and propagates. -/
def check_nvidia_gpu (env : Env) : Run Bool :=
  runBind (install_package ["pynvml"] env.pynvmlInstallOk) fun _ =>
    let body := nvmlProbeBody env
    let handled : Run Bool :=
      match body.2 with
      | Except.ok b => (body.1, Except.ok b)
      | Except.error PyExc.nvmlError =>
          (body.1 ++ [Event.echo "No NVIDIA GPU detected or NVIDIA drivers not properly installed"],
           Except.ok false)
      | Except.error e => (body.1, Except.error e)
    if env.nvmlShutdownOk then handled
    else (handled.1, Except.error PyExc.nvmlError)

/-- The `SystemExit` message of line 86. -/
def ffmpegExitMsg : String :=
  "FFmpeg is required. Please install it and run the installer again."

/-- `check_ffmpeg()` (lines 48-86): probe `ffmpeg -version`; on failure,
auto-install via apt-get when on Colab (propagating apt failures, `check=True`).
Off Colab, `install_cmd` is pre-initialised (line 67) but `extra_note` is
assigned only in the `Windows`/`Darwin`/`Linux` branches (lines 69-77): on
those platforms the guidance panel is printed (the per-OS command text is
elided from the panel event) and `SystemExit` is raised at line 86; on any
other `platform.system()` value, evaluating the f-string at line 82 raises
`UnboundLocalError` for `extra_note` before the panel is printed and before
the `SystemExit` is reached. -/
def check_ffmpeg (env : Env) : Run Bool :=
  if env.ffmpegOk then
    ([Event.runProc ["ffmpeg", "-version"], Event.panel "✅ FFmpeg is already installed"],
     Except.ok true)
  else if env.colab then
    if !env.aptUpdateOk then
      ([Event.runProc ["ffmpeg", "-version"], Event.aptGetUpdate],
       Except.error (PyExc.calledProcessError "apt-get update"))
    else if !env.aptInstallOk then
      ([Event.runProc ["ffmpeg", "-version"], Event.aptGetUpdate, Event.aptGetInstallFfmpeg],
       Except.error (PyExc.calledProcessError "apt-get install -y ffmpeg"))
    else
      ([Event.runProc ["ffmpeg", "-version"], Event.aptGetUpdate, Event.aptGetInstallFfmpeg,
        Event.panel "✅ FFmpeg has been installed"],
       Except.ok true)
  else
    if env.systemName = "Windows" ∨ env.systemName = "Darwin" ∨ env.systemName = "Linux" then
      ([Event.runProc ["ffmpeg", "-version"], Event.panel "❌ FFmpeg not found"],
       Except.error (PyExc.systemExit ffmpegExitMsg))
    else
      ([Event.runProc ["ffmpeg", "-version"]],
       Except.error (PyExc.unboundLocal "extra_note"))

/-- `check_package_version(package_name)` (lines 88-94):
`pkg_resources.get_distribution(...).version`, with `DistributionNotFound`
caught and turned into `None`.  The installed-distribution database is the
`installedDist` lookup table of the environment. -/
def check_package_version (env : Env) (package_name : String) : Option String :=
  match env.installedDist.find? (fun p => p.1 == package_name) with
  | some p => some p.2
  | none => none

/-- The list comprehension of line 102:
`[r.strip() for r in requirements if r.strip() and not r.startswith('#')]`.
Note the comment test runs on the raw, unstripped line. -/
def parseRequirements (lines : List String) : List String :=
  (lines.filter fun r => !(pyStrip r == "") && !(pyStartswith r "#")).map pyStrip

/-- Package-name extraction of lines 106-111: the part before `==` when
present, else before `>=` when present, else the whole specifier. -/
def reqPackageName (req : String) : String :=
  match splitHead "==".toList req.toList with
  | some pre => ⟨pre⟩
  | none =>
    match splitHead ">=".toList req.toList with
    | some pre => ⟨pre⟩
    | none => req

/-- `check_requirements_satisfied()` (lines 96-117): `false` when the file is
missing (`FileNotFoundError` caught), otherwise `true` iff every parsed
requirement has an installed distribution. -/
def check_requirements_satisfied (env : Env) : Bool :=
  match env.reqFile with
  | none => false
  | some lines =>
    (parseRequirements lines).all fun req =>
      (check_package_version env (reqPackageName req)).isSome

/-- The logged message of line 199 — `str(e)` rendered as the failing pip
command. -/
def failLogMsg (file : String) : String :=
  "❌ Failed to install requirements: pip install -r " ++ file

/-- The inner `install_requirements()` closure of `main` (lines 169-199).
On Colab it reads `requirements.txt` (a `FileNotFoundError` from `open`
is NOT caught — the handler only catches `CalledProcessError`), filters out
lines starting with `torch`, writes `requirements_temp.txt`, pip-installs
from it and removes it; the removal (line 188) is inside the `try`, so a pip
failure jumps to the handler and skips it.  Off Colab it pip-installs
`requirements.txt` directly.  A `CalledProcessError` is caught and logged,
so the function returns normally in that case. -/
def install_requirements (env : Env) : Run Unit :=
  if env.colab then
    match env.reqFile with
    | none => ([], Except.error (PyExc.fileNotFound "requirements.txt"))
    | some lines =>
      let filtered := lines.filter fun r => !(pyStartswith r "torch")
      let evs := [Event.fwrite "requirements_temp.txt" (joinLines filtered),
                  Event.pipInstallReq "requirements_temp.txt"]
      if env.pipReqsOk then
        (evs ++ [Event.fremove "requirements_temp.txt"], Except.ok ())
      else
        (evs ++ [Event.panel (failLogMsg "requirements_temp.txt")], Except.ok ())
  else
    if env.pipReqsOk then
      ([Event.pipInstallReq "requirements.txt"], Except.ok ())
    else
      ([Event.pipInstallReq "requirements.txt", Event.panel (failLogMsg "requirements.txt")],
       Except.ok ())

/-- The Colab banner of lines 127 and 153. -/
def colabPanelMsg : String := "🎮 Running in Google Colab environment"

/-- Early-return body of lines 131-136: report satisfaction, run the ffmpeg
check (whose exceptions propagate), report readiness, print launch advice,
return. -/
def earlyReturnPath (env : Env) : Run Unit :=
  runBind (runPure [Event.panel "✅ All required packages are already installed"]) fun _ =>
  runBind (check_ffmpeg env) fun _ =>
  runPure [Event.panel "Ready to use!",
           Event.echo "To start the application, run:",
           Event.echo "streamlit run st.py"]

/-- `platform.system() != 'Darwin' and check_nvidia_gpu()` (line 160):
short-circuit, so the probe never runs on Darwin. -/
def gpuProbeStep (env : Env) : Run Bool :=
  if env.systemName == "Darwin" then ([], Except.ok false)
  else check_nvidia_gpu env

/-- The PyTorch install of lines 161-167: CUDA build when a GPU was found,
CPU build otherwise (unguarded `check_call`, so a pip failure propagates). -/
def torchInstallStep (env : Env) (has_gpu : Bool) : Run Unit :=
  if has_gpu then
    runBind (runPure [Event.panel "🎮 NVIDIA GPU detected, installing CUDA version of PyTorch..."]) fun _ =>
      install_package ["torch==2.0.0", "torchaudio==2.0.0", "--index-url",
                       "https://download.pytorch.org/whl/cu118"] env.pipTorchOk
  else
    runBind (runPure [Event.panel
        (if env.systemName == "Darwin" then "🍎 MacOS detected, installing CPU version of PyTorch..."
         else "💻 No NVIDIA GPU detected, installing CPU version of PyTorch...")]) fun _ =>
      install_package ["torch==2.1.2", "torchaudio==2.1.2"] env.pipTorchOk

/-- The external `core.pypi_autochoose.main()` call (lines 156-157).  The
module is not part of this repository slice; it is abstracted as an opaque
step that either completes or raises. -/
def choose_mirror (env : Env) : Run Unit :=
  if env.mirrorOk then ([Event.chooseMirror], Except.ok ())
  else ([Event.chooseMirror], Except.error (PyExc.calledProcessError "pypi_autochoose"))

/-- Lines 138-215 of `main`: the full installer path (base pip bootstrap,
welcome banner — ASCII art elided from the panel event — mirror/GPU/torch
setup off Colab, the requirements install, the ffmpeg check, completion
messages and the detached application launch). -/
def mainTail (env : Env) : Run Unit :=
  runBind (install_package ["requests", "rich", "ruamel.yaml"] env.pipBaseOk) fun _ =>
  runBind (runPure [Event.panel "VideoLingo ASCII logo",
                    Event.panel "🚀 Starting Installation"]) fun _ =>
  runBind (if env.colab then runPure [Event.panel colabPanelMsg]
           else
             runBind (choose_mirror env) fun _ =>
             runBind (gpuProbeStep env) fun has_gpu =>
             torchInstallStep env has_gpu) fun _ =>
  runBind (install_requirements env) fun _ =>
  runBind (check_ffmpeg env) fun _ =>
  runPure [Event.panel "Installation completed",
           Event.echo "To start the application, run:",
           Event.echo "streamlit run st.py",
           Event.echo "Note: First startup may take up to 1 minute",
           Event.launch ["streamlit", "run", "st.py"]]

/-- `main()` (lines 119-215): on Colab, print the banner and take the
early-return path when every requirement is satisfied; otherwise fall
through to the full installer path. -/
def main (env : Env) : Run Unit :=
  if env.colab then
    runBind (runPure [Event.panel colabPanelMsg]) fun _ =>
      if check_requirements_satisfied env then earlyReturnPath env
      else mainTail env
  else mainTail env

/-- Process exit status of `python install.py`: 0 when `main` returns,
1 when it raises — `SystemExit` with a string argument exits 1, and any
other uncaught exception also exits 1. -/
def exitCode (env : Env) : Nat :=
  match (main env).2 with
  | Except.ok _ => 0
  | Except.error _ => 1

/-! ### Trace observations -/

/-- Number of `apt-get install -y ffmpeg` invocations in a trace. -/
def countAptInstall : List Event → Nat
  | [] => 0
  | Event.aptGetInstallFfmpeg :: rest => countAptInstall rest + 1
  | _ :: rest => countAptInstall rest

/-- Whether the application was launched. -/
def hasLaunch : List Event → Bool
  | [] => false
  | Event.launch _ :: _ => true
  | _ :: rest => hasLaunch rest

/-- Whether any `pip install -r` of a requirements list happened. -/
def hasPipInstallReq : List Event → Bool
  | [] => false
  | Event.pipInstallReq _ :: _ => true
  | _ :: rest => hasPipInstallReq rest

/-- Whether some panel with exactly this message was printed. -/
def hasPanel (msg : String) : List Event → Bool
  | [] => false
  | Event.panel m :: rest => m == msg || hasPanel msg rest
  | _ :: rest => hasPanel msg rest

/-- Whether the line-199 requirements-install failure log was printed. -/
def hasInstallFailLog : List Event → Bool
  | [] => false
  | Event.panel m :: rest =>
    pyStartswith m "❌ Failed to install requirements" || hasInstallFailLog rest
  | _ :: rest => hasInstallFailLog rest

/-- Whether the file `file` exists after the trace ran, starting from
existence state `b`. -/
def fileExistsAfter (file : String) : List Event → Bool → Bool
  | [], b => b
  | Event.fwrite n _ :: rest, b => fileExistsAfter file rest (if n == file then true else b)
  | Event.fremove n :: rest, b => fileExistsAfter file rest (if n == file then false else b)
  | _ :: rest, b => fileExistsAfter file rest b

/-! ### Proof toolkit -/

/-- Sequencing a step that already produced a value. -/
@[simp] theorem runBind_pair_ok {α β : Type} (evs : List Event) (a : α) (f : α → Run β) :
    runBind (evs, Except.ok a) f = (evs ++ (f a).1, (f a).2) := rfl

/-- Sequencing after an in-flight exception skips the continuation. -/
@[simp] theorem runBind_pair_error {α β : Type} (evs : List Event) (e : PyExc) (f : α → Run β) :
    runBind (evs, Except.error e) f = (evs, Except.error e) := rfl

/-- `runPure` unfolded. -/
@[simp] theorem runPure_eq (evs : List Event) : runPure evs = (evs, Except.ok ()) := rfl

/-- Sequencing an abstract step known to have returned `a`. -/
theorem runBind_ok {α β : Type} (x : Run α) (f : α → Run β) (a : α)
    (h : x.2 = Except.ok a) : runBind x f = (x.1 ++ (f a).1, (f a).2) := by
  unfold runBind; rw [h]

/-- Sequencing an abstract step known to have raised `e`. -/
theorem runBind_err {α β : Type} (x : Run α) (f : α → Run β) (e : PyExc)
    (h : x.2 = Except.error e) : runBind x f = (x.1, Except.error e) := by
  unfold runBind; rw [h]

@[simp] theorem countAptInstall_append (a b : List Event) :
    countAptInstall (a ++ b) = countAptInstall a + countAptInstall b := by
  induction a with
  | nil => simp [countAptInstall]
  | cons e rest ih => cases e <;> simp [countAptInstall, ih] <;> omega

@[simp] theorem hasLaunch_append (a b : List Event) :
    hasLaunch (a ++ b) = (hasLaunch a || hasLaunch b) := by
  induction a with
  | nil => simp [hasLaunch]
  | cons e rest ih => cases e <;> simp [hasLaunch, ih]

@[simp] theorem hasPipInstallReq_append (a b : List Event) :
    hasPipInstallReq (a ++ b) = (hasPipInstallReq a || hasPipInstallReq b) := by
  induction a with
  | nil => simp [hasPipInstallReq]
  | cons e rest ih => cases e <;> simp [hasPipInstallReq, ih]

@[simp] theorem hasPanel_append (msg : String) (a b : List Event) :
    hasPanel msg (a ++ b) = (hasPanel msg a || hasPanel msg b) := by
  induction a with
  | nil => simp [hasPanel]
  | cons e rest ih => cases e <;> simp [hasPanel, ih, Bool.or_assoc]

@[simp] theorem hasInstallFailLog_append (a b : List Event) :
    hasInstallFailLog (a ++ b) = (hasInstallFailLog a || hasInstallFailLog b) := by
  induction a with
  | nil => simp [hasInstallFailLog]
  | cons e rest ih => cases e <;> simp [hasInstallFailLog, ih, Bool.or_assoc]

/-- The GPU probe's trace never touches apt-get, never launches, never runs a
requirements install and never logs a requirements failure. -/
theorem check_nvidia_gpu_trace (env : Env) :
    countAptInstall (check_nvidia_gpu env).1 = 0 ∧
    hasLaunch (check_nvidia_gpu env).1 = false ∧
    hasPipInstallReq (check_nvidia_gpu env).1 = false ∧
    hasInstallFailLog (check_nvidia_gpu env).1 = false := by
  unfold check_nvidia_gpu nvmlProbeBody install_package runBind
  by_cases h1 : env.pynvmlInstallOk <;> by_cases h3 : env.nvmlInitOk <;>
    by_cases h4 : env.nvmlCountOk <;> by_cases h5 : env.nvmlDeviceCount > 0 <;>
    by_cases h6 : env.nvmlHandleNameOk <;> by_cases h2 : env.nvmlShutdownOk <;>
    simp [h1, h2, h3, h4, h5, h6, countAptInstall, hasLaunch, hasPipInstallReq,
      hasInstallFailLog]

/-- When the pynvml pip install succeeds and the final `nvmlShutdown` does not
raise, the probe always returns a boolean. -/
theorem check_nvidia_gpu_ok (env : Env) (h1 : env.pynvmlInstallOk = true)
    (h2 : env.nvmlShutdownOk = true) :
    (check_nvidia_gpu env).2 = Except.ok true ∨
    (check_nvidia_gpu env).2 = Except.ok false := by
  unfold check_nvidia_gpu nvmlProbeBody install_package runBind
  by_cases h3 : env.nvmlInitOk <;> by_cases h4 : env.nvmlCountOk <;>
    by_cases h5 : env.nvmlDeviceCount > 0 <;> by_cases h6 : env.nvmlHandleNameOk <;>
    simp [h1, h2, h3, h4, h5, h6]

/-- `install_requirements` returns normally whenever the requirements file is
readable on Colab (pip failures are caught and logged; off Colab the file is
never opened by this function). -/
theorem install_requirements_ok (env : Env)
    (h : env.colab = true → env.reqFile ≠ none) :
    (install_requirements env).2 = Except.ok () := by
  unfold install_requirements
  by_cases hc : env.colab = true
  · cases hr : env.reqFile with
    | none => exact absurd hr (h hc)
    | some rs => by_cases hp : env.pipReqsOk = true <;> simp [hc, hr, hp]
  · by_cases hp : env.pipReqsOk = true <;> simp [hc, hp]

/-- The requirements-install step never touches apt-get and never launches. -/
theorem install_requirements_trace (env : Env) :
    countAptInstall (install_requirements env).1 = 0 ∧
    hasLaunch (install_requirements env).1 = false := by
  unfold install_requirements
  cases hr : env.reqFile <;> by_cases hc : env.colab = true <;>
    by_cases hp : env.pipReqsOk = true <;>
    simp [hr, hc, hp, countAptInstall, hasLaunch]

/-- A non-hosted run without ffmpeg that reaches the toolchain check dies
there — with `SystemExit` on Windows/Darwin/Linux, with the `extra_note`
`UnboundLocalError` on any other platform — and in either case no apt-get
install of the toolchain happens and nothing is launched. -/
theorem main_missing_ffmpeg_local (env : Env)
    (hc : env.colab = false) (hf : env.ffmpegOk = false)
    (hb : env.pipBaseOk = true) (hm : env.mirrorOk = true)
    (hp : env.pynvmlInstallOk = true) (hsd : env.nvmlShutdownOk = true)
    (ht : env.pipTorchOk = true) :
    (main env).2 = Except.error
      (if env.systemName = "Windows" ∨ env.systemName = "Darwin" ∨ env.systemName = "Linux"
       then PyExc.systemExit ffmpegExitMsg
       else PyExc.unboundLocal "extra_note") ∧
    countAptInstall (main env).1 = 0 ∧
    hasLaunch (main env).1 = false := by
  rcases check_nvidia_gpu_ok env hp hsd with hg | hg <;>
    by_cases hplat : env.systemName = "Windows" ∨ env.systemName = "Darwin" ∨
      env.systemName = "Linux" <;>
    by_cases hd : (env.systemName == "Darwin") = true <;>
    by_cases hpr : env.pipReqsOk = true <;>
    simp [main, mainTail, hc, hf, hb, hm, ht, hplat, hd, hpr, install_package,
      choose_mirror, gpuProbeStep, torchInstallStep, install_requirements,
      check_ffmpeg, runBind_ok _ _ _ hg, countAptInstall, hasLaunch,
      (check_nvidia_gpu_trace env).1, (check_nvidia_gpu_trace env).2.1]

/-! ### The claims -/

/-- Environment refuting C1 as stated: a non-hosted FreeBSD machine without
ffmpeg.  `platform.system()` is none of `Windows`/`Darwin`/`Linux`, so
`extra_note` is never assigned and evaluating the guidance f-string at line
82 raises `UnboundLocalError` — the run terminates non-zero, but not via the
line-86 `SystemExit`. -/
def envC1c : Env := {
  colab := false, systemName := "FreeBSD", pipBaseOk := true, mirrorOk := true,
  pynvmlInstallOk := true, nvmlInitOk := false, nvmlCountOk := true,
  nvmlDeviceCount := 0, nvmlHandleNameOk := true, nvmlShutdownOk := true,
  pipTorchOk := true, ffmpegOk := false, aptUpdateOk := true, aptInstallOk := true,
  reqFile := some ["requests"], installedDist := [], pipReqsOk := true }

/-- C1 counterexample: a non-hosted run without ffmpeg that terminates with
`UnboundLocalError`, not `SystemExit` (still before any apt-get install of
the toolchain). -/
theorem C1_counterexample :
    (main envC1c).2 = Except.error (PyExc.unboundLocal "extra_note") ∧
    (main envC1c).2 ≠ Except.error (PyExc.systemExit ffmpegExitMsg) ∧
    countAptInstall (main envC1c).1 = 0 := by decide

/-- C1 amended: in a non-hosted (non-Colab) run in which the ffmpeg binary
is absent (and in which execution reaches the toolchain check, i.e. the
earlier unguarded external steps — base pip bootstrap, mirror selection,
pynvml install/shutdown, torch install — succeed), the process terminates
non-zero, no system package-manager install of the toolchain
(`apt-get install ffmpeg`) is ever attempted, and the application is never
launched; the termination is via the line-86 `SystemExit` when
`platform.system()` is `Windows`, `Darwin` or `Linux`, and via the
`extra_note` `UnboundLocalError` of line 82 on any other platform.  (The
spec's "package install" is the toolchain install that the hosted branch
would perform; pip installs of Python dependencies necessarily precede the
toolchain check.) -/
theorem C1_nonhosted_missing_toolchain_terminates (env : Env)
    (hc : env.colab = false) (hf : env.ffmpegOk = false)
    (hb : env.pipBaseOk = true) (hm : env.mirrorOk = true)
    (hp : env.pynvmlInstallOk = true) (hsd : env.nvmlShutdownOk = true)
    (ht : env.pipTorchOk = true) :
    exitCode env = 1 ∧
    countAptInstall (main env).1 = 0 ∧
    hasLaunch (main env).1 = false ∧
    ((env.systemName = "Windows" ∨ env.systemName = "Darwin" ∨ env.systemName = "Linux") →
      (main env).2 = Except.error (PyExc.systemExit ffmpegExitMsg)) ∧
    (¬(env.systemName = "Windows" ∨ env.systemName = "Darwin" ∨ env.systemName = "Linux") →
      (main env).2 = Except.error (PyExc.unboundLocal "extra_note")) := by
  have h := main_missing_ffmpeg_local env hc hf hb hm hp hsd ht
  refine ⟨by unfold exitCode; rw [h.1], h.2.1, h.2.2, fun hplat => ?_, fun hplat => ?_⟩
  · rw [h.1, if_pos hplat]
  · rw [h.1, if_neg hplat]

/-- Concrete witness for C1: a local Linux machine without ffmpeg. -/
def envC1w : Env := {
  colab := false, systemName := "Linux", pipBaseOk := true, mirrorOk := true,
  pynvmlInstallOk := true, nvmlInitOk := false, nvmlCountOk := true,
  nvmlDeviceCount := 0, nvmlHandleNameOk := true, nvmlShutdownOk := true,
  pipTorchOk := true, ffmpegOk := false, aptUpdateOk := true, aptInstallOk := true,
  reqFile := some ["requests"], installedDist := [], pipReqsOk := true }

/-- C1 witness: the amended theorem applied to `envC1w`, a supported
platform, where the `SystemExit` arm fires. -/
theorem C1_witness :
    exitCode envC1w = 1 ∧
    countAptInstall (main envC1w).1 = 0 ∧
    hasLaunch (main envC1w).1 = false ∧
    ((envC1w.systemName = "Windows" ∨ envC1w.systemName = "Darwin" ∨
        envC1w.systemName = "Linux") →
      (main envC1w).2 = Except.error (PyExc.systemExit ffmpegExitMsg)) ∧
    (¬(envC1w.systemName = "Windows" ∨ envC1w.systemName = "Darwin" ∨
        envC1w.systemName = "Linux") →
      (main envC1w).2 = Except.error (PyExc.unboundLocal "extra_note")) :=
  C1_nonhosted_missing_toolchain_terminates envC1w rfl rfl rfl rfl rfl rfl rfl

/-- Environment refuting C2: the NVML driver library is unavailable, so
`nvmlInit` raises (caught by the handler), but the unconditional
`pynvml.nvmlShutdown()` in the `finally` block then raises as well — exactly
what the real library does when it was never initialised — and that second
exception propagates to the caller. -/
def envC2c : Env := {
  colab := false, systemName := "Linux", pipBaseOk := true, mirrorOk := true,
  pynvmlInstallOk := true, nvmlInitOk := false, nvmlCountOk := true,
  nvmlDeviceCount := 0, nvmlHandleNameOk := true, nvmlShutdownOk := false,
  pipTorchOk := true, ffmpegOk := true, aptUpdateOk := true, aptInstallOk := true,
  reqFile := some [], installedDist := [], pipReqsOk := true }

/-- C2 counterexample: a run of the GPU probe in which a call of the driver
query library raises (here `nvmlShutdown`, after `nvmlInit` already failed)
and the probe propagates the exception instead of returning `false`. -/
theorem C2_counterexample :
    (check_nvidia_gpu envC2c).2 = Except.error PyExc.nvmlError := by decide

/-- C2 amended: provided the pip install of the driver wrapper succeeds and
the final `nvmlShutdown` call does not raise, the probe always returns a
boolean, and any `NVMLError` raised by the probe body (init, device count,
handle or name query) yields the "no GPU" outcome `false`.  Exceptions from
the pip install of the library, or from the `finally`-block shutdown call,
propagate to the caller. -/
theorem C2_probe_swallows_body_errors (env : Env)
    (h1 : env.pynvmlInstallOk = true) (h2 : env.nvmlShutdownOk = true) :
    ((check_nvidia_gpu env).2 = Except.ok true ∨
     (check_nvidia_gpu env).2 = Except.ok false) ∧
    ((nvmlProbeBody env).2 = Except.error PyExc.nvmlError →
     (check_nvidia_gpu env).2 = Except.ok false) := by
  refine ⟨check_nvidia_gpu_ok env h1 h2, fun hb => ?_⟩
  unfold check_nvidia_gpu install_package runBind
  simp [h1, h2, hb]

/-- Witness environment for the amended C2: no driver, but a well-behaved
shutdown. -/
def envC2w : Env := { envC2c with nvmlShutdownOk := true }

/-- C2 witness: the amended theorem applied to `envC2w`, where the probe
body raises and the probe returns `false`. -/
theorem C2_witness :
    ((check_nvidia_gpu envC2w).2 = Except.ok true ∨
     (check_nvidia_gpu envC2w).2 = Except.ok false) ∧
    ((nvmlProbeBody envC2w).2 = Except.error PyExc.nvmlError →
     (check_nvidia_gpu envC2w).2 = Except.ok false) :=
  C2_probe_swallows_body_errors envC2w rfl rfl

/-- A line whose raw text starts with `#` still starts with `#` after
stripping: stripping only removes whitespace, and `#` is not whitespace. -/
theorem startswithHash_of_strip (r : String) (h : pyStartswith r "#" = true) :
    pyStartswith (pyStrip r) "#" = true := by
  obtain ⟨l⟩ := r
  have hh : "#".toList = ['#'] := rfl
  unfold pyStartswith at h ⊢
  unfold pyStrip
  rw [hh] at h ⊢
  cases l with
  | nil => simp [List.isPrefixOf] at h
  | cons c t =>
    have hc : c = '#' := by
      simp [List.isPrefixOf] at h
      exact h.symm
    subst hc
    have hw : ('#' : Char).isWhitespace = false := by decide
    show List.isPrefixOf ['#'] (dropTrailingWs (List.dropWhile Char.isWhitespace ('#' :: t))) = true
    rw [List.dropWhile_cons]
    simp only [hw, Bool.false_eq_true, if_false]
    show List.isPrefixOf ['#'] (dropTrailingWs ('#' :: t)) = true
    unfold dropTrailingWs
    cases hdt : dropTrailingWs t <;> simp [List.isPrefixOf, hw]

/-- C3 counterexample: a requirements file whose only comment line is
indented.  The claim classifies `"  # pinned below"` as a `#`-comment (and
certainly not as a valid requirement), so the parsed count should be 1; the
code tests `startswith('#')` on the unstripped line, keeps the comment, and
parses 2 requirements. -/
theorem C3_counterexample :
    parseRequirements ["  # pinned below", "requests"] = ["# pinned below", "requests"] ∧
    (parseRequirements ["  # pinned below", "requests"]).length = 2 := by decide

/-- C3 amended: blank lines (after stripping) are always ignored, but a
comment line is ignored only when its `#` is unindented.  Provided every
comment line of the file starts with `#` in column zero, the parsed
requirement count equals the number of lines that are neither blank nor
comments; an indented comment line is kept (stripped) and counted as a
requirement. -/
theorem C3_parse_count (lines : List String)
    (h : ∀ r ∈ lines, pyStartswith (pyStrip r) "#" = true → pyStartswith r "#" = true) :
    (parseRequirements lines).length =
      (lines.filter fun r => !(pyStrip r == "") && !(pyStartswith (pyStrip r) "#")).length := by
  have key : ∀ x ∈ lines,
      (!(pyStrip x == "") && !(pyStartswith x "#")) =
      (!(pyStrip x == "") && !(pyStartswith (pyStrip x) "#")) := by
    intro x hx
    have h1 := h x hx
    have h2 := startswithHash_of_strip x
    cases hb : pyStartswith x "#" <;> cases hb2 : pyStartswith (pyStrip x) "#" <;>
      simp_all
  calc (parseRequirements lines).length
      = (lines.filter fun r => !(pyStrip r == "") && !(pyStartswith r "#")).length := by
        simp [parseRequirements]
    _ = _ := by rw [List.filter_congr key]

/-- C3 witness: on a file whose comments are all unindented, the parsed
count equals the number of non-blank, non-comment lines (here 2). -/
theorem C3_witness :
    (parseRequirements ["# header", "", "   ", "requests", "numpy==1.26"]).length =
      ((["# header", "", "   ", "requests", "numpy==1.26"]).filter fun r =>
        !(pyStrip r == "") && !(pyStartswith (pyStrip r) "#")).length :=
  C3_parse_count ["# header", "", "   ", "requests", "numpy==1.26"] (by decide)

/-- Environment refuting C4: a hosted run whose filtered pip install fails.
The `os.remove('requirements_temp.txt')` of line 188 sits inside the `try`
after the `check_call`, so the `CalledProcessError` jumps to the handler and
the removal never runs. -/
def envC4c : Env := {
  colab := true, systemName := "Linux", pipBaseOk := true, mirrorOk := true,
  pynvmlInstallOk := true, nvmlInitOk := true, nvmlCountOk := true,
  nvmlDeviceCount := 0, nvmlHandleNameOk := true, nvmlShutdownOk := true,
  pipTorchOk := true, ffmpegOk := true, aptUpdateOk := true, aptInstallOk := true,
  reqFile := some ["requests"], installedDist := [], pipReqsOk := false }

/-- C4 counterexample: in a hosted run where the filtered pip install fails,
`requirements_temp.txt` still exists after the installer step finished. -/
theorem C4_counterexample :
    fileExistsAfter "requirements_temp.txt" (install_requirements envC4c).1 false = true ∧
    (install_requirements envC4c).2 = Except.ok () := by decide

/-- C4 amended: in the hosted-runtime branch `requirements_temp.txt` is
always created for the filtered install, and it is removed again exactly
when the pip install succeeds; when the pip install fails, the exception
handler skips the removal and the file is left behind. -/
theorem C4_temp_file_lifecycle (env : Env) (rs : List String)
    (hc : env.colab = true) (hr : env.reqFile = some rs) :
    (Event.fwrite "requirements_temp.txt"
        (joinLines (rs.filter fun r => !(pyStartswith r "torch"))) ∈
      (install_requirements env).1) ∧
    (env.pipReqsOk = true →
      fileExistsAfter "requirements_temp.txt" (install_requirements env).1 false = false) ∧
    (env.pipReqsOk = false →
      fileExistsAfter "requirements_temp.txt" (install_requirements env).1 false = true) := by
  unfold install_requirements
  by_cases hp : env.pipReqsOk = true <;>
    simp [hc, hr, hp, fileExistsAfter]

/-- Witness environment for the amended C4: a successful hosted install. -/
def envC4w : Env := { envC4c with pipReqsOk := true }

/-- C4 witness: the amended theorem applied to `envC4w`. -/
theorem C4_witness :
    (Event.fwrite "requirements_temp.txt"
        (joinLines (["requests"].filter fun r => !(pyStartswith r "torch"))) ∈
      (install_requirements envC4w).1) ∧
    (envC4w.pipReqsOk = true →
      fileExistsAfter "requirements_temp.txt" (install_requirements envC4w).1 false = false) ∧
    (envC4w.pipReqsOk = false →
      fileExistsAfter "requirements_temp.txt" (install_requirements envC4w).1 false = true) :=
  C4_temp_file_lifecycle envC4w ["requests"] rfl rfl

/-- C5: in a hosted run where every requirement is already satisfied (and
the toolchain check does not itself blow up: ffmpeg is present, or apt-get
can install it), `main` returns normally through the early path, reports
readiness, and never attempts a pip install of the requirements list. -/
theorem C5_hosted_satisfied_early_return (env : Env)
    (hc : env.colab = true) (hs : check_requirements_satisfied env = true)
    (hf : env.ffmpegOk = true ∨ (env.aptUpdateOk = true ∧ env.aptInstallOk = true)) :
    (main env).2 = Except.ok () ∧
    hasPanel "Ready to use!" (main env).1 = true ∧
    hasPipInstallReq (main env).1 = false := by
  rcases hf with hf | ⟨ha1, ha2⟩
  · simp [main, earlyReturnPath, check_ffmpeg, hc, hs, hf, hasPanel, hasPipInstallReq]
  · by_cases hf : env.ffmpegOk = true <;>
      simp [main, earlyReturnPath, check_ffmpeg, hc, hs, hf, ha1, ha2, hasPanel,
        hasPipInstallReq]

/-- Witness environment for C5: Colab, all requirements installed, ffmpeg
present. -/
def envC5w : Env := {
  colab := true, systemName := "Linux", pipBaseOk := true, mirrorOk := true,
  pynvmlInstallOk := true, nvmlInitOk := true, nvmlCountOk := true,
  nvmlDeviceCount := 0, nvmlHandleNameOk := true, nvmlShutdownOk := true,
  pipTorchOk := true, ffmpegOk := true, aptUpdateOk := true, aptInstallOk := true,
  reqFile := some ["requests", "# comment", ""], installedDist := [("requests", "2.31.0")],
  pipReqsOk := true }

/-- C5 witness: the theorem applied to `envC5w`. -/
theorem C5_witness :
    (main envC5w).2 = Except.ok () ∧
    hasPanel "Ready to use!" (main envC5w).1 = true ∧
    hasPipInstallReq (main envC5w).1 = false :=
  C5_hosted_satisfied_early_return envC5w rfl (by decide) (Or.inl rfl)

/-- C6: in a hosted run in which ffmpeg is absent, apt-get succeeds, the
requirements file exists and the base pip bootstrap succeeds (so the run
reaches the toolchain check on either path), the apt-get install of ffmpeg
appears exactly once in the whole run and the toolchain check returns
success. -/
theorem C6_hosted_apt_install_once (env : Env)
    (hc : env.colab = true) (hf : env.ffmpegOk = false)
    (ha1 : env.aptUpdateOk = true) (ha2 : env.aptInstallOk = true)
    (hb : env.pipBaseOk = true) (hr : env.reqFile ≠ none) :
    countAptInstall (main env).1 = 1 ∧
    (check_ffmpeg env).2 = Except.ok true := by
  obtain ⟨rs, hrs⟩ := Option.ne_none_iff_exists'.mp hr
  by_cases hs : check_requirements_satisfied env = true <;>
    by_cases hp : env.pipReqsOk = true <;>
    simp [main, mainTail, earlyReturnPath, install_requirements, install_package,
      check_ffmpeg, hc, hf, ha1, ha2, hb, hrs, hs, hp, countAptInstall]

/-- Witness environment for C6: Colab without ffmpeg, working apt. -/
def envC6w : Env := {
  colab := true, systemName := "Linux", pipBaseOk := true, mirrorOk := true,
  pynvmlInstallOk := true, nvmlInitOk := true, nvmlCountOk := true,
  nvmlDeviceCount := 0, nvmlHandleNameOk := true, nvmlShutdownOk := true,
  pipTorchOk := true, ffmpegOk := false, aptUpdateOk := true, aptInstallOk := true,
  reqFile := some ["requests"], installedDist := [], pipReqsOk := true }

/-- C6 witness: the theorem applied to `envC6w`. -/
theorem C6_witness :
    countAptInstall (main envC6w).1 = 1 ∧
    (check_ffmpeg envC6w).2 = Except.ok true :=
  C6_hosted_apt_install_once envC6w rfl rfl rfl rfl rfl (by decide)

/-- The base pip bootstrap of line 138 is always attempted by the full
installer path, whether or not it succeeds. -/
theorem mainTail_bootstrap_event (env : Env) :
    Event.pipInstall ["requests", "rich", "ruamel.yaml"] ∈ (mainTail env).1 := by
  unfold mainTail install_package
  by_cases hb : env.pipBaseOk = true <;> simp [hb, runBind]

/-- C7: when the pip install of the requirements list fails (and the run
reaches it: the earlier unguarded steps succeed, the requirements file is
readable, the hosted early return does not trigger, and ffmpeg is present so
the later toolchain check passes), `main` still returns normally: the
failure is logged with the line-199 panel, and the remaining steps up to and
including the application launch all run. -/
theorem C7_requirements_install_failure_nonfatal (env : Env)
    (hp : env.pipReqsOk = false) (hb : env.pipBaseOk = true)
    (hf : env.ffmpegOk = true) (hr : env.reqFile ≠ none)
    (hm : env.mirrorOk = true) (hpy : env.pynvmlInstallOk = true)
    (hsd : env.nvmlShutdownOk = true) (ht : env.pipTorchOk = true)
    (hs : env.colab = true → check_requirements_satisfied env = false) :
    (main env).2 = Except.ok () ∧
    hasInstallFailLog (main env).1 = true ∧
    hasLaunch (main env).1 = true := by
  obtain ⟨rs, hrs⟩ := Option.ne_none_iff_exists'.mp hr
  by_cases hc : env.colab = true
  · simp [main, mainTail, install_requirements, install_package, check_ffmpeg,
      hc, hs hc, hp, hb, hf, hrs, hasInstallFailLog, hasLaunch] <;> decide
  · rcases check_nvidia_gpu_ok env hpy hsd with hg | hg <;>
      by_cases hd : (env.systemName == "Darwin") = true <;>
      simp [main, mainTail, install_requirements, install_package, check_ffmpeg,
        choose_mirror, gpuProbeStep, torchInstallStep, hc, hp, hb, hf, hm, ht, hd,
        runBind_ok _ _ _ hg, hasInstallFailLog, hasLaunch,
        (check_nvidia_gpu_trace env).2.1, (check_nvidia_gpu_trace env).2.2.2] <;>
      decide

/-- Witness environment for C7: a hosted run whose requirements install
fails but whose setup otherwise completes. -/
def envC7w : Env := {
  colab := true, systemName := "Linux", pipBaseOk := true, mirrorOk := true,
  pynvmlInstallOk := true, nvmlInitOk := true, nvmlCountOk := true,
  nvmlDeviceCount := 0, nvmlHandleNameOk := true, nvmlShutdownOk := true,
  pipTorchOk := true, ffmpegOk := true, aptUpdateOk := true, aptInstallOk := true,
  reqFile := some ["numpy"], installedDist := [], pipReqsOk := false }

/-- C7 witness: the theorem applied to `envC7w`. -/
theorem C7_witness :
    (main envC7w).2 = Except.ok () ∧
    hasInstallFailLog (main envC7w).1 = true ∧
    hasLaunch (main envC7w).1 = true :=
  C7_requirements_install_failure_nonfatal envC7w rfl rfl rfl (by decide) rfl rfl rfl rfl
    (fun _ => by decide)

/-- Environment refuting C8: a hosted run in which ffmpeg IS present but the
unguarded base pip bootstrap of line 138 fails.  The `CalledProcessError`
propagates out of `main` and the process exits non-zero even though the
toolchain is not missing — so "non-zero exactly when the toolchain is
missing on a non-hosted system" fails in the only-if direction. -/
def envC8c : Env := {
  colab := true, systemName := "Linux", pipBaseOk := false, mirrorOk := true,
  pynvmlInstallOk := true, nvmlInitOk := true, nvmlCountOk := true,
  nvmlDeviceCount := 0, nvmlHandleNameOk := true, nvmlShutdownOk := true,
  pipTorchOk := true, ffmpegOk := true, aptUpdateOk := true, aptInstallOk := true,
  reqFile := some ["numpy"], installedDist := [], pipReqsOk := true }

/-- C8 counterexample: non-zero exit with the toolchain present (and in a
hosted run, so not the non-hosted missing-ffmpeg branch). -/
theorem C8_counterexample :
    exitCode envC8c = 1 ∧ envC8c.ffmpegOk = true ∧ envC8c.colab = true := by decide

/-- C8 amended: the exit code is 0 on a successful full run and on the
hosted already-satisfied early return, and non-zero in the non-hosted
missing-ffmpeg branch; but not ONLY there — any failure of an unguarded
external step (pip bootstrap, mirror selection, pynvml install/shutdown,
torch install, apt-get, or a missing requirements file in the hosted full
path) also propagates and exits non-zero. -/
theorem C8_exit_codes :
    (∀ env : Env, env.pipBaseOk = true → env.mirrorOk = true →
      env.pynvmlInstallOk = true → env.nvmlShutdownOk = true →
      env.pipTorchOk = true → env.pipReqsOk = true → env.ffmpegOk = true →
      env.reqFile ≠ none → exitCode env = 0) ∧
    (∀ env : Env, env.colab = true → check_requirements_satisfied env = true →
      env.ffmpegOk = true → exitCode env = 0) ∧
    (∀ env : Env, env.colab = false → env.ffmpegOk = false →
      env.pipBaseOk = true → env.mirrorOk = true → env.pynvmlInstallOk = true →
      env.nvmlShutdownOk = true → env.pipTorchOk = true → exitCode env = 1) := by
  refine ⟨fun env hb hm hpy hsd ht hp hf hr => ?_, fun env hc hs hf => ?_,
    fun env hc hf hb hm hpy hsd ht => ?_⟩
  · obtain ⟨rs, hrs⟩ := Option.ne_none_iff_exists'.mp hr
    by_cases hc : env.colab = true
    · by_cases hs : check_requirements_satisfied env = true <;>
        simp [exitCode, main, mainTail, earlyReturnPath, install_requirements,
          install_package, check_ffmpeg, hc, hs, hb, hp, hf, hrs]
    · rcases check_nvidia_gpu_ok env hpy hsd with hg | hg <;>
        by_cases hd : (env.systemName == "Darwin") = true <;>
        simp [exitCode, main, mainTail, install_requirements, install_package,
          check_ffmpeg, choose_mirror, gpuProbeStep, torchInstallStep, hc, hb,
          hm, ht, hp, hf, hd, runBind_ok _ _ _ hg]
  · simp [exitCode, main, earlyReturnPath, check_ffmpeg, hc, hs, hf]
  · have h := main_missing_ffmpeg_local env hc hf hb hm hpy hsd ht
    unfold exitCode; rw [h.1]

/-- Witness environment for the amended C8, arm one: everything succeeds. -/
def envC8w1 : Env := {
  colab := false, systemName := "Linux", pipBaseOk := true, mirrorOk := true,
  pynvmlInstallOk := true, nvmlInitOk := true, nvmlCountOk := true,
  nvmlDeviceCount := 1, nvmlHandleNameOk := true, nvmlShutdownOk := true,
  pipTorchOk := true, ffmpegOk := true, aptUpdateOk := true, aptInstallOk := true,
  reqFile := some ["numpy"], installedDist := [], pipReqsOk := true }

/-- Witness environment for the amended C8, arm two: hosted and satisfied. -/
def envC8w2 : Env := { envC8w1 with
  colab := true
  installedDist := [("numpy", "1.26")] }

/-- Witness environment for the amended C8, arm three: local, no ffmpeg. -/
def envC8w3 : Env := { envC8w1 with ffmpegOk := false }

/-- C8 witness: the three arms applied to concrete environments. -/
theorem C8_witness :
    exitCode envC8w1 = 0 ∧ exitCode envC8w2 = 0 ∧ exitCode envC8w3 = 1 :=
  ⟨C8_exit_codes.1 envC8w1 rfl rfl rfl rfl rfl rfl rfl (by decide),
   C8_exit_codes.2.1 envC8w2 rfl (by decide) rfl,
   C8_exit_codes.2.2 envC8w3 rfl rfl rfl rfl rfl rfl rfl⟩

/-- C9: when `requirements.txt` does not exist, the satisfaction check
catches the `FileNotFoundError` and returns `false` instead of raising, so a
hosted run never takes the early-return path: it falls through to the full
installer path (witnessed by the line-138 pip bootstrap being attempted). -/
theorem C9_missing_requirements_file (env : Env) (h : env.reqFile = none) :
    check_requirements_satisfied env = false ∧
    (env.colab = true →
      Event.pipInstall ["requests", "rich", "ruamel.yaml"] ∈ (main env).1) := by
  have hsat : check_requirements_satisfied env = false := by
    simp [check_requirements_satisfied, h]
  refine ⟨hsat, fun hc => ?_⟩
  simp [main, hc, hsat]
  exact mainTail_bootstrap_event env

/-- Witness environment for C9: hosted, no requirements file. -/
def envC9w : Env := {
  colab := true, systemName := "Linux", pipBaseOk := true, mirrorOk := true,
  pynvmlInstallOk := true, nvmlInitOk := true, nvmlCountOk := true,
  nvmlDeviceCount := 0, nvmlHandleNameOk := true, nvmlShutdownOk := true,
  pipTorchOk := true, ffmpegOk := true, aptUpdateOk := true, aptInstallOk := true,
  reqFile := none, installedDist := [], pipReqsOk := true }

/-- C9 witness: the theorem applied to `envC9w`. -/
theorem C9_witness :
    check_requirements_satisfied envC9w = false ∧
    (envC9w.colab = true →
      Event.pipInstall ["requests", "rich", "ruamel.yaml"] ∈ (main envC9w).1) :=
  C9_missing_requirements_file envC9w rfl

/-- C10: the content written to `requirements_temp.txt` in the hosted
filtered install is exactly the original lines with those whose raw text
starts with `torch` removed (so `torchaudio`/`torchvision` lines go too,
while comment and blank lines — which do not start with `torch` — survive),
joined by newlines. -/
theorem C10_torch_filter_content (env : Env) (rs : List String)
    (hc : env.colab = true) (hr : env.reqFile = some rs) :
    Event.fwrite "requirements_temp.txt"
        (joinLines (rs.filter fun r => !(pyStartswith r "torch"))) ∈
      (install_requirements env).1 := by
  unfold install_requirements
  by_cases hp : env.pipReqsOk = true <;> simp [hc, hr, hp]

/-- Witness environment for C10: a hosted run with torch, torchaudio,
comment and blank lines in the requirements file. -/
def envC10w : Env := {
  colab := true, systemName := "Linux", pipBaseOk := true, mirrorOk := true,
  pynvmlInstallOk := true, nvmlInitOk := true, nvmlCountOk := true,
  nvmlDeviceCount := 0, nvmlHandleNameOk := true, nvmlShutdownOk := true,
  pipTorchOk := true, ffmpegOk := true, aptUpdateOk := true, aptInstallOk := true,
  reqFile := some ["torch==2.1.2", "torchaudio==2.1.2", "# comment", "", "requests"],
  installedDist := [], pipReqsOk := true }

/-- C10 witness: the theorem applied to `envC10w` — the written content is
`"# comment\n\nrequests"`, keeping the comment and blank lines. -/
theorem C10_witness :
    Event.fwrite "requirements_temp.txt"
        (joinLines ((["torch==2.1.2", "torchaudio==2.1.2", "# comment", "", "requests"]).filter
          fun r => !(pyStartswith r "torch"))) ∈
      (install_requirements envC10w).1 :=
  C10_torch_filter_content envC10w
    ["torch==2.1.2", "torchaudio==2.1.2", "# comment", "", "requests"] rfl rfl

end VideoLingo
